import Mathlib

/-!
A shallow embedding of the core of the `lychee` link checker.

The embedding covers:
* the `Status` taxonomy, its classifier, display and serialization
  (`src/types.rs`),
* the response aggregator `ResponseStats` (`src/stats.rs`),
* the checking client: dispatch, retry loop with exponential backoff,
  GitHub fallback and mail probe (`lychee-lib/src/client.rs`).

Network effects are modelled by oracles: the result of the i-th HTTP
probe is a function `Nat → LibStatus`, the GitHub repository query and
the mail deliverability check are functions supplied as parameters.
Machine integers (`u16` status codes, `u64` waits) stay well inside
their ranges here, so they are modelled as `Nat`.
-/

/-- HTTP status codes (the `u16` value of `http::StatusCode`). -/
abbrev StatusCode := Nat

/-- The `http` crate's `StatusCode::is_success`: `200 <= c < 300`. -/
def is_success_code (c : StatusCode) : Bool := decide (200 ≤ c ∧ c < 300)

/-- The `http` crate's `StatusCode::is_redirection`: `300 <= c < 400`. -/
def is_redirection_code (c : StatusCode) : Bool := decide (300 ≤ c ∧ c < 400)

/-- Embedding of `Status` from `src/types.rs` (lines 109-121): the response status of a
request. `Error` carries a reason string and an optional code, `Timeout`
an optional code. -/
inductive Status where
  | Ok (code : StatusCode)
  | Error (reason : String) (code : Option StatusCode)
  | Timeout (code : Option StatusCode)
  | Redirected (code : StatusCode)
  | Excluded
deriving DecidableEq, Repr

/-- Embedding of `Status::new` from `src/types.rs` (lines 153-163): the accepted set is
consulted first (`if let Some(true) = accepted.map(|a| a.contains(&statuscode))`),
then 2xx, then 3xx, otherwise an error with empty reason.
The `HashSet<StatusCode>` is modelled as `Finset StatusCode`. -/
def Status.new (statuscode : StatusCode) (accepted : Option (Finset StatusCode)) : Status :=
  match accepted.map (fun a => decide (statuscode ∈ a)) with
  | some true => Status.Ok statuscode
  | _ =>
    if is_success_code statuscode then Status.Ok statuscode
    else if is_redirection_code statuscode then Status.Redirected statuscode
    else Status.Error "" (some statuscode)

/-- Embedding of `Status::is_success` from `src/types.rs` (lines 165-167):
`matches!(self, Status::Ok(_))`. -/
def Status.is_success : Status → Bool
  | Status.Ok _ => true
  | _ => false

/-- Embedding of `Status::is_failure` from `src/types.rs` (lines 169-171):
`matches!(self, Status::Error(_, _))`. -/
def Status.is_failure : Status → Bool
  | Status.Error _ _ => true
  | _ => false

/-- Embedding of `Status::is_excluded` from `src/types.rs` (lines 173-175). -/
def Status.is_excluded : Status → Bool
  | Status.Excluded => true
  | _ => false

/-- A `reqwest::Error` as far as `From<reqwest::Error> for Status`
observes it: whether it is a timeout (`e.is_timeout()`), its rendered
message (`e.to_string()`) and the optional HTTP status (`e.status()`). -/
structure ReqwestError where
  is_timeout : Bool
  message : String
  status : Option StatusCode
deriving DecidableEq, Repr

/-- Embedding of `impl From<reqwest::Error> for Status` from `src/types.rs`
(lines 188-196). -/
def Status.from_reqwest_error (e : ReqwestError) : Status :=
  if e.is_timeout then Status.Timeout e.status
  else Status.Error e.message e.status

/-- Claim C3: `Status::new` classifies in order — accepted set first,
then 2xx ⇒ `Ok`, then 3xx ⇒ `Redirected`, otherwise `Error("", Some c)`;
and `is_success` of the result implies the code is 2xx or in the
accepted set. -/
theorem C3_status_new_classification (c : StatusCode) (accepted : Option (Finset StatusCode)) :
    ((∃ a, accepted = some a ∧ c ∈ a) → Status.new c accepted = Status.Ok c)
    ∧ (¬ (∃ a, accepted = some a ∧ c ∈ a) → (200 ≤ c ∧ c < 300) →
        Status.new c accepted = Status.Ok c)
    ∧ (¬ (∃ a, accepted = some a ∧ c ∈ a) → ¬ (200 ≤ c ∧ c < 300) → (300 ≤ c ∧ c < 400) →
        Status.new c accepted = Status.Redirected c)
    ∧ (¬ (∃ a, accepted = some a ∧ c ∈ a) → ¬ (200 ≤ c ∧ c < 300) → ¬ (300 ≤ c ∧ c < 400) →
        Status.new c accepted = Status.Error "" (some c))
    ∧ ((Status.new c accepted).is_success = true →
        (200 ≤ c ∧ c < 300) ∨ ∃ a, accepted = some a ∧ c ∈ a) := by
  rcases accepted with _ | a
  · refine ⟨?_, ?_, ?_, ?_, ?_⟩
    · rintro ⟨a, h, -⟩; cases h
    · intro _ h2
      simp [Status.new, is_success_code, h2]
    · intro _ h2 h3
      simp [Status.new, is_success_code, is_redirection_code, h2, h3]
    · intro _ h2 h3
      simp [Status.new, is_success_code, is_redirection_code, h2, h3]
    · intro h
      by_cases h2 : 200 ≤ c ∧ c < 300
      · exact Or.inl h2
      · exfalso
        by_cases h3 : 300 ≤ c ∧ c < 400 <;>
          simp [Status.new, is_success_code, is_redirection_code, h2, h3,
            Status.is_success] at h
  · by_cases hmem : c ∈ a
    · refine ⟨fun _ => ?_, fun hno => absurd ⟨a, rfl, hmem⟩ hno,
        fun hno => absurd ⟨a, rfl, hmem⟩ hno,
        fun hno => absurd ⟨a, rfl, hmem⟩ hno, fun _ => Or.inr ⟨a, rfl, hmem⟩⟩
      simp [Status.new, hmem]
    · refine ⟨?_, ?_, ?_, ?_, ?_⟩
      · rintro ⟨a', ha', hc⟩
        cases ha'; exact absurd hc hmem
      · intro _ h2
        simp [Status.new, hmem, is_success_code, h2]
      · intro _ h2 h3
        simp [Status.new, hmem, is_success_code, is_redirection_code, h2, h3]
      · intro _ h2 h3
        simp [Status.new, hmem, is_success_code, is_redirection_code, h2, h3]
      · intro h
        by_cases h2 : 200 ≤ c ∧ c < 300
        · exact Or.inl h2
        · exfalso
          by_cases h3 : 300 ≤ c ∧ c < 400 <;>
            simp [Status.new, hmem, is_success_code, is_redirection_code, h2, h3,
              Status.is_success] at h

/-- Witness for C3 at a concrete input: 404 with accepted set {404}. -/
theorem C3_status_new_classification_witness :
    Status.new 404 (some ({404} : Finset StatusCode)) = Status.Ok 404 :=
  (C3_status_new_classification 404 (some {404})).1 ⟨{404}, rfl, by decide⟩

/-- Claim C7: a transport error converts to `Timeout(e.status())` exactly
when it is a timeout, otherwise to `Error(e.to_string(), e.status())`;
never to `Ok`, `Redirected` or `Excluded`. -/
theorem C7_reqwest_error_conversion (e : ReqwestError) :
    (e.is_timeout = true → Status.from_reqwest_error e = Status.Timeout e.status)
    ∧ (e.is_timeout = false → Status.from_reqwest_error e = Status.Error e.message e.status)
    ∧ (∀ c, Status.from_reqwest_error e ≠ Status.Ok c)
    ∧ (∀ c, Status.from_reqwest_error e ≠ Status.Redirected c)
    ∧ Status.from_reqwest_error e ≠ Status.Excluded := by
  rcases e with ⟨t, m, s⟩
  cases t <;> simp [Status.from_reqwest_error]

/-- Witness for C7 at a concrete input: a timeout with a started 504
response converts to `Timeout (some 504)`. -/
theorem C7_reqwest_error_conversion_witness :
    Status.from_reqwest_error ⟨true, "operation timed out", some 504⟩
      = Status.Timeout (some 504) :=
  (C7_reqwest_error_conversion ⟨true, "operation timed out", some 504⟩).1 rfl

/-- Claim C10: `is_failure` holds exactly for `Error`; `Timeout` and
`Redirected` are neither a success nor a failure. -/
theorem C10_timeout_redirect_neither (s : Status) :
    (s.is_failure = true ↔ ∃ reason code, s = Status.Error reason code)
    ∧ (∀ c, (Status.Timeout c).is_success = false ∧ (Status.Timeout c).is_failure = false)
    ∧ (∀ c, (Status.Redirected c).is_success = false ∧ (Status.Redirected c).is_failure = false) := by
  refine ⟨?_, fun c => ⟨rfl, rfl⟩, fun c => ⟨rfl, rfl⟩⟩
  cases s <;> simp [Status.is_failure]

/-- Witness for C10 at a concrete input. -/
theorem C10_timeout_redirect_neither_witness :
    (Status.Timeout none).is_success = false ∧ (Status.Timeout none).is_failure = false :=
  (C10_timeout_redirect_neither Status.Excluded).2.1 none

/-- The `Status` type that `src/stats.rs` matches on (an earlier vintage
of the taxonomy): `Ok`, `Failed`, unit `Timeout` and `Redirected`,
`Excluded`, and `Error` with a single payload. Payload types other than
the `Ok` code are not observed by `stats.rs`, so they are modelled with
the simplest carriers. -/
inductive StatsStatus where
  | Ok (code : StatusCode)
  | Failed (code : StatusCode)
  | Timeout
  | Redirected
  | Excluded
  | Error (reason : String)
deriving DecidableEq, Repr

/-- A response as `src/stats.rs` observes it: its URI (modelled by its
normalized string form, which is how `Uri` hashes and compares) and its
status. -/
structure StatsResponse where
  uri : String
  status : StatsStatus
deriving DecidableEq, Repr

/-- Embedding of `ResponseStats` from `src/stats.rs` (lines 9-17); the `HashSet<Uri>`
fields are modelled as `Finset String`. -/
structure ResponseStats where
  total : Nat
  successful : Nat
  failed : Finset String
  timeout : Finset String
  redirected : Finset String
  excluded : Finset String
  error : Finset String

/-- Embedding of `ResponseStats::new` from `src/stats.rs` (lines 20-30). -/
def ResponseStats.new : ResponseStats :=
  ⟨0, 0, ∅, ∅, ∅, ∅, ∅⟩

/-- Embedding of `ResponseStats::add` from `src/stats.rs` (lines 32-53): increment
`total`, then bump `successful` for `Ok` and insert the URI into the
matching set otherwise. -/
def ResponseStats.add (st : ResponseStats) (response : StatsResponse) : ResponseStats :=
  let st := { st with total := st.total + 1 }
  match response.status with
  | StatsStatus.Ok _ => { st with successful := st.successful + 1 }
  | StatsStatus.Failed _ => { st with failed := insert response.uri st.failed }
  | StatsStatus.Timeout => { st with timeout := insert response.uri st.timeout }
  | StatsStatus.Redirected => { st with redirected := insert response.uri st.redirected }
  | StatsStatus.Excluded => { st with excluded := insert response.uri st.excluded }
  | StatsStatus.Error _ => { st with error := insert response.uri st.error }

/-- Embedding of `ResponseStats::is_success` from `src/stats.rs` (lines 55-57):
`self.total == self.successful + self.excluded.len()`. -/
def ResponseStats.is_success (st : ResponseStats) : Bool :=
  st.total == st.successful + st.excluded.card

/-- Folding a whole run of responses into the aggregator. -/
def ResponseStats.add_all (st : ResponseStats) (run : List StatsResponse) : ResponseStats :=
  run.foldl ResponseStats.add st

/-- The statuses the claim calls failures of a run: `Failed`, `Timeout`,
`Redirected` or `Error` (everything except `Ok` and `Excluded`). -/
def StatsStatus.is_problem : StatsStatus → Bool
  | StatsStatus.Failed _ => true
  | StatsStatus.Timeout => true
  | StatsStatus.Redirected => true
  | StatsStatus.Error _ => true
  | _ => false

/-- The URIs of the `Excluded` responses of a run, in order. -/
def excl_uris (run : List StatsResponse) : List String :=
  (run.filter (fun r => r.status == StatsStatus.Excluded)).map (fun r => r.uri)

theorem stats_add_sum_le (st : ResponseStats) (r : StatsResponse)
    (h : st.successful + st.excluded.card ≤ st.total) :
    (st.add r).successful + (st.add r).excluded.card ≤ (st.add r).total := by
  rcases r with ⟨u, s⟩
  have hins := Finset.card_insert_le u st.excluded
  cases s <;> simp [ResponseStats.add] <;> omega

theorem stats_add_sum_lt (st : ResponseStats) (r : StatsResponse)
    (h : st.successful + st.excluded.card < st.total) :
    (st.add r).successful + (st.add r).excluded.card < (st.add r).total := by
  rcases r with ⟨u, s⟩
  have hins := Finset.card_insert_le u st.excluded
  cases s <;> simp [ResponseStats.add] <;> omega

theorem stats_add_problem_lt (st : ResponseStats) (r : StatsResponse)
    (hbad : r.status.is_problem = true)
    (h : st.successful + st.excluded.card ≤ st.total) :
    (st.add r).successful + (st.add r).excluded.card < (st.add r).total := by
  rcases r with ⟨u, s⟩
  cases s <;> simp [StatsStatus.is_problem] at hbad <;>
    simp [ResponseStats.add] <;> omega

theorem stats_add_all_le (run : List StatsResponse) :
    ∀ st : ResponseStats, st.successful + st.excluded.card ≤ st.total →
    (st.add_all run).successful + (st.add_all run).excluded.card ≤ (st.add_all run).total := by
  induction run with
  | nil => intro st h; exact h
  | cons r rest ih =>
    intro st h
    exact ih (st.add r) (stats_add_sum_le st r h)

theorem stats_add_all_lt (run : List StatsResponse) :
    ∀ st : ResponseStats, st.successful + st.excluded.card < st.total →
    (st.add_all run).successful + (st.add_all run).excluded.card < (st.add_all run).total := by
  induction run with
  | nil => intro st h; exact h
  | cons r rest ih =>
    intro st h
    exact ih (st.add r) (stats_add_sum_lt st r h)

theorem stats_add_all_good (run : List StatsResponse) :
    ∀ st : ResponseStats, st.total = st.successful + st.excluded.card →
    (∀ r ∈ run, (∃ c, r.status = StatsStatus.Ok c) ∨ r.status = StatsStatus.Excluded) →
    (excl_uris run).Nodup →
    (∀ u ∈ excl_uris run, u ∉ st.excluded) →
    (st.add_all run).total = (st.add_all run).successful + (st.add_all run).excluded.card := by
  induction run with
  | nil => intro st h _ _ _; exact h
  | cons r rest ih =>
    intro st h hgood hnodup hfresh
    rcases hgood r (List.mem_cons_self r rest) with ⟨c, hc⟩ | hc
    · rcases r with ⟨u, s⟩
      cases hc
      have hex : excl_uris (⟨u, StatsStatus.Ok c⟩ :: rest) = excl_uris rest := by
        simp [excl_uris]
      refine ih (ResponseStats.add st ⟨u, StatsStatus.Ok c⟩) ?_
        (fun x hx => hgood x (List.mem_cons_of_mem _ hx)) ?_ ?_
      · simp [ResponseStats.add]; omega
      · rw [hex] at hnodup; exact hnodup
      · intro v hv
        have := hfresh v (by rw [hex]; exact hv)
        simpa [ResponseStats.add] using this
    · rcases r with ⟨u, s⟩
      cases hc
      have hex : excl_uris (⟨u, StatsStatus.Excluded⟩ :: rest)
          = u :: excl_uris rest := by
        simp [excl_uris]
      rw [hex] at hnodup hfresh
      have hunotmem : u ∉ st.excluded := hfresh u (List.mem_cons_self u _)
      have hrest_nodup : (excl_uris rest).Nodup := hnodup.of_cons
      have hu_rest : u ∉ excl_uris rest := by
        have := List.nodup_cons.mp hnodup
        exact this.1
      refine ih (ResponseStats.add st ⟨u, StatsStatus.Excluded⟩) ?_
        (fun x hx => hgood x (List.mem_cons_of_mem _ hx)) hrest_nodup ?_
      · simp [ResponseStats.add, Finset.card_insert_of_not_mem hunotmem]; omega
      · intro v hv
        simp only [ResponseStats.add, Finset.mem_insert]
        push_neg
        refine ⟨?_, hfresh v (List.mem_cons_of_mem _ hv)⟩
        intro hvu
        exact hu_rest (hvu ▸ hv)

/-- Counterexample for C8: a run of two `Excluded` responses with the same
URI consists only of `Ok`/`Excluded` responses, yet the aggregate is not a
success, because the excluded `HashSet` deduplicates while `total` counts
both. -/
theorem C8_counterexample :
    (∀ r ∈ ([⟨"https://example.com/a", StatsStatus.Excluded⟩,
             ⟨"https://example.com/a", StatsStatus.Excluded⟩] : List StatsResponse),
        (∃ c, r.status = StatsStatus.Ok c) ∨ r.status = StatsStatus.Excluded)
    ∧ (ResponseStats.add_all ResponseStats.new
        [⟨"https://example.com/a", StatsStatus.Excluded⟩,
         ⟨"https://example.com/a", StatsStatus.Excluded⟩]).is_success = false := by
  constructor
  · intro r hr
    simp only [List.mem_cons, List.not_mem_nil, or_false] at hr
    rcases hr with rfl | rfl
    · exact Or.inr rfl
    · exact Or.inr rfl
  · decide

/-- Claim C8 (amended): `Status::is_success` holds exactly for `Ok`;
`ResponseStats::is_success` holds iff `total` equals `successful` plus the
number of distinct excluded URIs; a run consisting only of `Ok` and
`Excluded` responses whose excluded URIs are pairwise distinct is a
success; and any `Error`, `Timeout`, `Redirected` or `Failed` response
makes the aggregate not a success. -/
theorem C8_stats_success (s : Status) (st : ResponseStats) (run run' : List StatsResponse) :
    (s.is_success = true ↔ ∃ c, s = Status.Ok c)
    ∧ (st.is_success = true ↔ st.total = st.successful + st.excluded.card)
    ∧ ((∀ r ∈ run, (∃ c, r.status = StatsStatus.Ok c) ∨ r.status = StatsStatus.Excluded) →
        (excl_uris run).Nodup →
        (ResponseStats.add_all ResponseStats.new run).is_success = true)
    ∧ (∀ r ∈ run', r.status.is_problem = true →
        (ResponseStats.add_all ResponseStats.new run').is_success = false) := by
  refine ⟨?_, ?_, ?_, ?_⟩
  · cases s <;> simp [Status.is_success]
  · simp [ResponseStats.is_success]
  · intro hgood hnodup
    have := stats_add_all_good run ResponseStats.new rfl hgood hnodup
      (by intro u _; simp [ResponseStats.new])
    simp [ResponseStats.is_success, this]
  · intro r hr hbad
    rcases List.append_of_mem hr with ⟨l1, l2, rfl⟩
    have h1 : (ResponseStats.add_all ResponseStats.new l1).successful
        + (ResponseStats.add_all ResponseStats.new l1).excluded.card
        ≤ (ResponseStats.add_all ResponseStats.new l1).total :=
      stats_add_all_le l1 ResponseStats.new (by simp [ResponseStats.new])
    have h2 := stats_add_problem_lt (ResponseStats.add_all ResponseStats.new l1) r hbad h1
    have h3 := stats_add_all_lt l2 _ h2
    have hsplit : ResponseStats.add_all ResponseStats.new (l1 ++ r :: l2)
        = ResponseStats.add_all ((ResponseStats.add_all ResponseStats.new l1).add r) l2 := by
      simp [ResponseStats.add_all, List.foldl_append]
    rw [hsplit]
    simp [ResponseStats.is_success]
    omega

/-- Witness for C8 at concrete runs: one `Ok` plus one `Excluded`
response (distinct URIs) aggregates to a success; a run containing a
404 `Failed` response does not. -/
theorem C8_stats_success_witness :
    (ResponseStats.add_all ResponseStats.new
      [⟨"https://example.com/a", StatsStatus.Ok 200⟩,
       ⟨"https://example.com/b", StatsStatus.Excluded⟩]).is_success = true
    ∧ (ResponseStats.add_all ResponseStats.new
      [⟨"https://example.com/a", StatsStatus.Ok 200⟩,
       ⟨"https://example.com/c", StatsStatus.Failed 404⟩]).is_success = false := by
  constructor
  · exact (C8_stats_success Status.Excluded ResponseStats.new
      [⟨"https://example.com/a", StatsStatus.Ok 200⟩,
       ⟨"https://example.com/b", StatsStatus.Excluded⟩] []).2.2.1
      (by
        intro r hr
        simp only [List.mem_cons, List.not_mem_nil, or_false] at hr
        rcases hr with rfl | rfl
        · exact Or.inl ⟨200, rfl⟩
        · exact Or.inr rfl)
      (by decide)
  · exact (C8_stats_success Status.Excluded ResponseStats.new []
      [⟨"https://example.com/a", StatsStatus.Ok 200⟩,
       ⟨"https://example.com/c", StatsStatus.Failed 404⟩]).2.2.2
      ⟨"https://example.com/c", StatsStatus.Failed 404⟩ (by decide) rfl

/-- A URI as `lychee-lib/src/client.rs` observes it. `uri.rs` is not part
of the sources at hand, so the three methods the client calls are
modelled as attributes, following the spec: `scheme()`, the string form
`as_str()`, and `extract_github()` which yields `(owner, repo)` when the
URI matches the provider's canonical repository form. -/
structure Uri where
  scheme : String
  text : String
  extract_github : Option (String × String)
deriving DecidableEq, Repr

/-- Embedding of `ErrorKind` from `lychee-lib/src/types/error.rs` (lines 12-41).
Payloads owned by external crates (io, reqwest, hubcaps, url parsing,
glob, header values, paths) are modelled by their rendered strings. -/
inductive ErrorKind where
  | IoError (path : Option String) (cause : String)
  | ReqwestError (cause : String)
  | HubcapsError (cause : String)
  | UrlParseError (input : String) (cause : String × Option String)
  | InvalidFileUri (uri : Uri)
  | InvalidPath (path : String)
  | UnreachableEmailAddress (uri : Uri)
  | InvalidHeader (cause : String)
  | InvalidBase (base : String) (cause : String)
  | FileNotFound (path : String)
  | InvalidGlobPattern (cause : String)
  | MissingGitHubToken
deriving DecidableEq, Repr

/-- Modelled from the spec: the `Status` type of `lychee-lib` (its
defining module is not among the sources; §3 of the spec gives the
taxonomy, and `client.rs`/`response.rs` use exactly these variants:
`Ok(code)`, `Redirected(code)`, `Timeout(code?)`, `Excluded`, and
`Error` carrying an `ErrorKind`). -/
inductive LibStatus where
  | Ok (code : StatusCode)
  | Redirected (code : StatusCode)
  | Timeout (code : Option StatusCode)
  | Excluded
  | Error (kind : ErrorKind)
deriving DecidableEq, Repr

/-- Modelled from the spec: `impl From<ErrorKind> for Status` (used as
`.into()` throughout `client.rs`) wraps the kind in `Status::Error`;
§7 of the spec: per-request errors "are folded into `Status::Error`". -/
def ErrorKind.into_status (e : ErrorKind) : LibStatus := LibStatus.Error e

/-- Embedding of `Status::is_success` as the client uses it: true only for `Ok`. -/
def LibStatus.is_success : LibStatus → Bool
  | LibStatus.Ok _ => true
  | _ => false

/-- The credential handling of `ClientBuilder::build` from
`lychee-lib/src/client.rs` (lines 141-146): a GitHub client exists iff
the configured token is present and non-empty. The `Github` client value
is modelled as the repository-query function it closes over (`api`
applied to the token). -/
def build_github_client (github_token : Option String)
    (api : String → String → String → Except String Unit) :
    Option (String → String → Except String Unit) :=
  match github_token with
  | some token => if ¬ token.isEmpty then some (api token) else none
  | _ => none

/-- Embedding of `Client::check_github` from `lychee-lib/src/client.rs`
(lines 208-217). The repository query `github.repo(owner, repo).get()`
is the client function itself; the second component records whether an
API request was issued at all. -/
def check_github (github_client : Option (String → String → Except String Unit))
    (owner repo : String) : LibStatus × Bool :=
  match github_client with
  | some github =>
    match github owner repo with
    | Except.ok _ => (LibStatus.Ok 200, true)
    | Except.error e => ((ErrorKind.HubcapsError e).into_status, true)
  | none => (ErrorKind.MissingGitHubToken.into_status, false)

/-- The retry loop of `Client::check_website` from
`lychee-lib/src/client.rs` (lines 186-198), with the i-th call to
`check_default` modelled by `probes i`. Arguments mirror the mutable
locals `retries`, `wait` and the index of the next probe; the result is
(whether the loop returned early on a success, the current status, the
list of sleeps performed in seconds). -/
def check_website_loop (probes : Nat → LibStatus) :
    Nat → Nat → Nat → LibStatus → Bool × LibStatus × List Nat
  | 0, _, _, status => (false, status, [])
  | Nat.succ retries, wait, idx, status =>
    if status.is_success then (true, status, [])
    else
      let rest := check_website_loop probes retries (wait * 2) (idx + 1) (probes idx)
      (rest.1, rest.2.1, wait :: rest.2.2)

/-- Embedding of `Client::check_website` from `lychee-lib/src/client.rs`
(lines 185-206): an initial probe, the retry loop with `retries = 3` and
`wait = 1`, then — whenever the loop did not return early — the GitHub
fallback for URIs with `extract_github()`. Returns (final status, sleeps
performed in seconds, whether `check_github` was invoked). -/
def check_website (probes : Nat → LibStatus)
    (github_client : Option (String → String → Except String Unit))
    (uri : Uri) : LibStatus × List Nat × Bool :=
  let res := check_website_loop probes 3 1 1 (probes 0)
  if res.1 then (res.2.1, res.2.2, false)
  else
    match uri.extract_github with
    | some (owner, repo) => ((check_github github_client owner repo).1, res.2.2, true)
    | none => (res.2.1, res.2.2, false)

/-- The reachability verdict of the external `check_if_email_exists`
crate (its `Reachable` enum; the spec calls the first variant
`Reachable`). Only `Invalid` is discriminated by the client. -/
inductive Reachable where
  | Safe
  | Risky
  | Invalid
  | Unknown
deriving DecidableEq, Repr

/-- Embedding of `Client::check_mail` from `lychee-lib/src/client.rs`
(lines 237-246), with the deliverability check modelled by the
`is_reachable` oracle. -/
def check_mail (is_reachable : Uri → Reachable) (uri : Uri) : LibStatus :=
  if is_reachable uri = Reachable.Invalid then
    (ErrorKind.UnreachableEmailAddress uri).into_status
  else
    LibStatus.Ok 200

/-- Embedding of `Request` as the client consumes it (`uri` plus its opaque `Input`
source, modelled as a string). -/
structure Request where
  uri : Uri
  source : String
deriving DecidableEq, Repr

/-- Embedding of `ResponseBody` from `lychee-lib/src/types/response.rs`
(lines 39-44). -/
structure ResponseBody where
  uri : Uri
  status : LibStatus
deriving DecidableEq, Repr

/-- Embedding of `Response` from `lychee-lib/src/types/response.rs` (line 8):
`Response(pub Input, pub ResponseBody)`. -/
structure LibResponse where
  source : String
  body : ResponseBody
deriving DecidableEq, Repr

/-- Embedding of `Response::new` from `lychee-lib/src/types/response.rs`
(lines 13-15). -/
def LibResponse.new (uri : Uri) (status : LibStatus) (source : String) : LibResponse :=
  ⟨source, ⟨uri, status⟩⟩

/-- Embedding of `Response::status` from `lychee-lib/src/types/response.rs`
(lines 19-21). -/
def LibResponse.status (r : LibResponse) : LibStatus := r.body.status

/-- Which probe (network I/O) a `check` call performed. -/
inductive ProbeKind where
  | NoProbe
  | MailProbe
  | WebProbe
deriving DecidableEq, Repr

/-- Embedding of `Client::check` from `lychee-lib/src/client.rs` (lines 168-183),
after the coercion into a `Request` has succeeded: the filter verdict is
the `is_excluded` oracle, the network is the `is_reachable` and `probes`
oracles. The second component records which probe ran. -/
def Client.check (is_excluded : Uri → Bool) (is_reachable : Uri → Reachable)
    (probes : Nat → LibStatus)
    (github_client : Option (String → String → Except String Unit))
    (request : Request) : LibResponse × ProbeKind :=
  let status_probe : LibStatus × ProbeKind :=
    if is_excluded request.uri then (LibStatus.Excluded, ProbeKind.NoProbe)
    else if request.uri.scheme = "mailto" then
      (check_mail is_reachable request.uri, ProbeKind.MailProbe)
    else
      ((check_website probes github_client request.uri).1, ProbeKind.WebProbe)
  (LibResponse.new request.uri status_probe.1 request.source, status_probe.2)

/-- A probe trace in which the first three probes fail and the final
(fourth) probe succeeds. -/
def final_success_probes : Nat → LibStatus := fun i =>
  if i = 3 then LibStatus.Ok 200
  else (ErrorKind.ReqwestError "HTTP status client error (404 Not Found)").into_status

/-- A GitHub repository URI. -/
def github_uri : Uri :=
  { scheme := "https"
    text := "https://github.com/lycheeverse/lychee"
    extract_github := some ("lycheeverse", "lychee") }

/-- Claim C1, evaluated at the failing input: with three failing probes,
a successful final probe, a GitHub URI and no token, `check_website`
still invokes the provider fallback and returns
`Error(MissingGitHubToken)` instead of the final probe's success. The
loop exits once `retries` reaches 0 without re-checking the status of
the final probe, so the fallback fires even though that probe
succeeded. -/
theorem C1_fallback_despite_final_success :
    (final_success_probes 3).is_success = true
    ∧ (check_website final_success_probes none github_uri).2.2 = true
    ∧ (check_website final_success_probes none github_uri).1
        = LibStatus.Error ErrorKind.MissingGitHubToken
    ∧ (check_website final_success_probes none github_uri).1 ≠ final_success_probes 3 := by
  refine ⟨rfl, rfl, rfl, by decide⟩

/-- Claim C2: `check_website` performs an initial probe and at most 3
retries; each sleep list is a prefix of `[1, 2, 4]`; a retry probe `j`
only happens after probe `j - 1` failed; a success among the probes the
loop inspects is returned immediately with only the sleeps so far; and
on a path where the first three probes all fail, the sleeps are exactly
`[1, 2, 4]`, summing to 7 seconds. -/
theorem C2_retry_backoff (probes : Nat → LibStatus)
    (github_client : Option (String → String → Except String Unit)) (uri : Uri) :
    ((check_website probes github_client uri).2.1).length ≤ 3
    ∧ (check_website probes github_client uri).2.1
        = List.take ((check_website probes github_client uri).2.1).length [1, 2, 4]
    ∧ (∀ j, j < ((check_website probes github_client uri).2.1).length →
        (probes j).is_success = false)
    ∧ (∀ k, k < 3 → (probes k).is_success = true →
        (∀ j, j < k → (probes j).is_success = false) →
        (check_website probes github_client uri).1 = probes k
        ∧ (check_website probes github_client uri).2.1 = List.take k [1, 2, 4])
    ∧ ((probes 0).is_success = false → (probes 1).is_success = false →
        (probes 2).is_success = false →
        (check_website probes github_client uri).2.1 = [1, 2, 4]
        ∧ ((check_website probes github_client uri).2.1).sum = 7) := by
  cases hb0 : (probes 0).is_success
  · cases hb1 : (probes 1).is_success
    · cases hb2 : (probes 2).is_success
      · have hsl : (check_website probes github_client uri).2.1 = [1, 2, 4] := by
          rcases hex : uri.extract_github with _ | ⟨owner, repo⟩ <;>
            simp [check_website, check_website_loop, hb0, hb1, hb2, hex]
        refine ⟨by simp [hsl], by rw [hsl]; rfl, ?_, ?_, ?_⟩
        · intro j hj
          rw [hsl] at hj
          simp at hj
          interval_cases j
          · exact hb0
          · exact hb1
          · exact hb2
        · intro k hk hks hprev
          interval_cases k
          · simp [hb0] at hks
          · simp [hb1] at hks
          · simp [hb2] at hks
        · intro _ _ _
          exact ⟨hsl, by rw [hsl]; rfl⟩
      · have hcw : check_website probes github_client uri = (probes 2, [1, 2], false) := by
          simp [check_website, check_website_loop, hb0, hb1, hb2]
        refine ⟨by simp [hcw], by rw [hcw]; rfl, ?_, ?_, ?_⟩
        · intro j hj
          rw [hcw] at hj
          simp at hj
          interval_cases j
          · exact hb0
          · exact hb1
        · intro k hk hks hprev
          interval_cases k
          · simp [hb0] at hks
          · simp [hb1] at hks
          · exact ⟨by simp [hcw], by rw [hcw]; rfl⟩
        · intro _ _ h2
          simp [hb2] at h2
    · have hcw : check_website probes github_client uri = (probes 1, [1], false) := by
        simp [check_website, check_website_loop, hb0, hb1]
      refine ⟨by simp [hcw], by rw [hcw]; rfl, ?_, ?_, ?_⟩
      · intro j hj
        rw [hcw] at hj
        simp at hj
        subst hj
        exact hb0
      · intro k hk hks hprev
        interval_cases k
        · simp [hb0] at hks
        · exact ⟨by simp [hcw], by rw [hcw]; rfl⟩
        · have h := hprev 1 (by omega)
          simp [hb1] at h
      · intro _ h1 _
        simp [hb1] at h1
  · have hcw : check_website probes github_client uri = (probes 0, [], false) := by
      simp [check_website, check_website_loop, hb0]
    refine ⟨by simp [hcw], by rw [hcw]; rfl, ?_, ?_, ?_⟩
    · intro j hj
      rw [hcw] at hj
      simp at hj
    · intro k hk hks hprev
      interval_cases k
      · exact ⟨by simp [hcw], by rw [hcw]; rfl⟩
      · have h := hprev 0 (by omega)
        simp [hb0] at h
      · have h := hprev 0 (by omega)
        simp [hb0] at h
    · intro h0 _ _
      simp [hb0] at h0

/-- Witness for C2 at a concrete input: all four probes time out, the
sleeps are exactly 1, 2 and 4 seconds. -/
theorem C2_retry_backoff_witness :
    (check_website (fun _ => LibStatus.Timeout none) none
      { scheme := "https", text := "https://example.com", extract_github := none }).2.1
        = [1, 2, 4]
    ∧ ((check_website (fun _ => LibStatus.Timeout none) none
      { scheme := "https", text := "https://example.com", extract_github := none }).2.1).sum
        = 7 :=
  (C2_retry_backoff (fun _ => LibStatus.Timeout none) none
    { scheme := "https", text := "https://example.com", extract_github := none }).2.2.2.2
    rfl rfl rfl

/-- Claim C4: `check` returns a response carrying the request's uri and
source, and dispatches by first match: excluded ⇒ `Excluded` with no
probe, then `mailto` ⇒ mail probe, otherwise the website probe. -/
theorem C4_check_dispatch (is_excluded : Uri → Bool) (is_reachable : Uri → Reachable)
    (probes : Nat → LibStatus)
    (github_client : Option (String → String → Except String Unit))
    (request : Request) :
    (Client.check is_excluded is_reachable probes github_client request).1.body.uri
        = request.uri
    ∧ (Client.check is_excluded is_reachable probes github_client request).1.source
        = request.source
    ∧ (is_excluded request.uri = true →
        (Client.check is_excluded is_reachable probes github_client request).1.body.status
          = LibStatus.Excluded
        ∧ (Client.check is_excluded is_reachable probes github_client request).2
          = ProbeKind.NoProbe)
    ∧ (is_excluded request.uri = false → request.uri.scheme = "mailto" →
        (Client.check is_excluded is_reachable probes github_client request).1.body.status
          = check_mail is_reachable request.uri
        ∧ (Client.check is_excluded is_reachable probes github_client request).2
          = ProbeKind.MailProbe)
    ∧ (is_excluded request.uri = false → request.uri.scheme ≠ "mailto" →
        (Client.check is_excluded is_reachable probes github_client request).1.body.status
          = (check_website probes github_client request.uri).1
        ∧ (Client.check is_excluded is_reachable probes github_client request).2
          = ProbeKind.WebProbe) := by
  cases hexc : is_excluded request.uri <;>
    by_cases hm : request.uri.scheme = "mailto" <;>
      simp [Client.check, LibResponse.new, hexc, hm]

/-- Witness for C4 at a concrete input: an excluded URI yields the
`Excluded` status and no probe. -/
theorem C4_check_dispatch_witness :
    (Client.check (fun _ => true) (fun _ => Reachable.Safe)
      (fun _ => LibStatus.Ok 200) none
      ⟨{ scheme := "https", text := "https://example.com", extract_github := none },
        "input.md"⟩).1.body.status = LibStatus.Excluded
    ∧ (Client.check (fun _ => true) (fun _ => Reachable.Safe)
      (fun _ => LibStatus.Ok 200) none
      ⟨{ scheme := "https", text := "https://example.com", extract_github := none },
        "input.md"⟩).2 = ProbeKind.NoProbe :=
  (C4_check_dispatch (fun _ => true) (fun _ => Reachable.Safe)
    (fun _ => LibStatus.Ok 200) none
    ⟨{ scheme := "https", text := "https://example.com", extract_github := none },
      "input.md"⟩).2.2.1 rfl

/-- Claim C5: an absent or empty token yields no GitHub client, and
`check_github` without a client returns `Error(MissingGitHubToken)`
without issuing a request; with a client, a successful repository query
yields `Ok(200)` and a failed one an `Error` carrying the provider's
error, each after issuing a request. -/
theorem C5_github_token_handling (token : Option String)
    (api : String → String → String → Except String Unit)
    (github : String → String → Except String Unit) (owner repo e : String) :
    ((token = none ∨ token = some "") → build_github_client token api = none)
    ∧ (∀ t, token = some t → t.isEmpty = false →
        build_github_client token api = some (api t))
    ∧ check_github none owner repo
        = (LibStatus.Error ErrorKind.MissingGitHubToken, false)
    ∧ (github owner repo = Except.ok () →
        check_github (some github) owner repo = (LibStatus.Ok 200, true))
    ∧ (github owner repo = Except.error e →
        check_github (some github) owner repo
          = (LibStatus.Error (ErrorKind.HubcapsError e), true)) := by
  refine ⟨?_, ?_, rfl, ?_, ?_⟩
  · rintro (rfl | rfl)
    · rfl
    · rfl
  · rintro t rfl ht
    simp [build_github_client, ht]
  · intro h
    simp [check_github, h]
  · intro h
    simp [check_github, h, ErrorKind.into_status]

/-- Witness for C5 at a concrete input: the empty token yields no
client, and a query-less `check_github` reports the missing token. -/
theorem C5_github_token_handling_witness :
    build_github_client (some "") (fun _ _ _ => Except.ok ()) = none
    ∧ check_github none "lycheeverse" "lychee"
        = (LibStatus.Error ErrorKind.MissingGitHubToken, false) :=
  ⟨(C5_github_token_handling (some "") (fun _ _ _ => Except.ok ())
      (fun _ _ => Except.ok ()) "lycheeverse" "lychee" "").1 (Or.inr rfl),
   (C5_github_token_handling (some "") (fun _ _ _ => Except.ok ())
      (fun _ _ => Except.ok ()) "lycheeverse" "lychee" "").2.2.1⟩

/-- Claim C6: `check_mail` returns `Error(UnreachableEmailAddress(uri))`
exactly when the deliverability check reports `Invalid`, and `Ok(200)`
for every other verdict; no other status is ever produced. -/
theorem C6_mail_classification (is_reachable : Uri → Reachable) (uri : Uri) :
    (check_mail is_reachable uri
        = LibStatus.Error (ErrorKind.UnreachableEmailAddress uri)
      ↔ is_reachable uri = Reachable.Invalid)
    ∧ (is_reachable uri ≠ Reachable.Invalid →
        check_mail is_reachable uri = LibStatus.Ok 200)
    ∧ (check_mail is_reachable uri
        = LibStatus.Error (ErrorKind.UnreachableEmailAddress uri)
      ∨ check_mail is_reachable uri = LibStatus.Ok 200) := by
  by_cases h : is_reachable uri = Reachable.Invalid <;>
    simp [check_mail, ErrorKind.into_status, h]

/-- Witness for C6 at a concrete input: an `Invalid` verdict yields the
unreachable-address error. -/
theorem C6_mail_classification_witness :
    check_mail (fun _ => Reachable.Invalid)
      { scheme := "mailto", text := "mailto:nobody@example.com", extract_github := none }
      = LibStatus.Error (ErrorKind.UnreachableEmailAddress
          { scheme := "mailto", text := "mailto:nobody@example.com", extract_github := none }) :=
  (C6_mail_classification (fun _ => Reachable.Invalid)
    { scheme := "mailto", text := "mailto:nobody@example.com", extract_github := none }).1.mpr
    rfl

/-- Decimal digits of a natural number, most significant first, with a
fuel argument for structural recursion (any `fuel > n` computes the full
numeral). This is the numeral Rust prints for an unsigned integer. -/
def nat_digits_aux : Nat → Nat → List Char
  | 0, _ => []
  | fuel + 1, n =>
    if n < 10 then [Nat.digitChar n]
    else nat_digits_aux fuel (n / 10) ++ [Nat.digitChar (n % 10)]

/-- The decimal numeral of a natural number as a string. -/
def nat_decimal (n : Nat) : String := String.mk (nat_digits_aux (n + 1) n)

/-- The value encoded by a list of decimal digit characters. -/
def digits_val (l : List Char) : Nat :=
  l.foldl (fun acc c => 10 * acc + (c.toNat - 48)) 0

theorem digitChar_toNat (m : Nat) (hm : m < 10) : (Nat.digitChar m).toNat = 48 + m := by
  interval_cases m <;> rfl

theorem nat_digits_aux_sound (fuel : Nat) :
    ∀ n : Nat, n < 10 ^ fuel → digits_val (nat_digits_aux fuel n) = n := by
  induction fuel with
  | zero =>
    intro n hn
    interval_cases n
    rfl
  | succ fuel ih =>
    intro n hn
    by_cases h : n < 10
    · rw [nat_digits_aux, if_pos h]
      have := digitChar_toNat n h
      simp [digits_val, this]
    · rw [nat_digits_aux, if_neg h]
      have hdiv : n / 10 < 10 ^ fuel := by
        rw [Nat.div_lt_iff_lt_mul (by norm_num)]
        calc n < 10 ^ (fuel + 1) := hn
        _ = 10 ^ fuel * 10 := by ring
      have hm : (Nat.digitChar (n % 10)).toNat = 48 + n % 10 :=
        digitChar_toNat (n % 10) (Nat.mod_lt n (by norm_num))
      rw [digits_val, List.foldl_append]
      have hih := ih (n / 10) hdiv
      rw [digits_val] at hih
      simp [hih, hm]
      omega

theorem nat_digits_aux_no_space (fuel : Nat) :
    ∀ n : Nat, ∀ c ∈ nat_digits_aux fuel n, c ≠ ' ' := by
  induction fuel with
  | zero =>
    intro n c hc
    simp [nat_digits_aux] at hc
  | succ fuel ih =>
    intro n c hc
    by_cases h : n < 10
    · rw [nat_digits_aux, if_pos h] at hc
      simp at hc
      subst hc
      interval_cases n <;> decide
    · rw [nat_digits_aux, if_neg h] at hc
      rcases List.mem_append.mp hc with hmem | hmem
      · exact ih (n / 10) c hmem
      · simp at hmem
        subst hmem
        have : n % 10 < 10 := Nat.mod_lt n (by omega)
        interval_cases hmod : n % 10 <;> simp_all <;> decide

theorem nat_decimal_inj (m n : Nat) (h : nat_decimal m = nat_decimal n) : m = n := by
  have hd : nat_digits_aux (m + 1) m = nat_digits_aux (n + 1) n :=
    congrArg String.data h
  have hm : m < 10 ^ (m + 1) :=
    lt_of_lt_of_le (Nat.lt_pow_self (by norm_num) m)
      (Nat.pow_le_pow_right (by norm_num) (Nat.le_succ m))
  have hn : n < 10 ^ (n + 1) :=
    lt_of_lt_of_le (Nat.lt_pow_self (by norm_num) n)
      (Nat.pow_le_pow_right (by norm_num) (Nat.le_succ n))
  calc m = digits_val (nat_digits_aux (m + 1) m) := (nat_digits_aux_sound _ m hm).symm
  _ = digits_val (nat_digits_aux (n + 1) n) := by rw [hd]
  _ = n := nat_digits_aux_sound _ n hn

theorem no_space_append_cancel (u : List Char) :
    ∀ (u' v v' : List Char), (∀ a ∈ u, a ≠ ' ') → (∀ a ∈ u', a ≠ ' ') →
    u ++ ' ' :: v = u' ++ ' ' :: v' → u = u' := by
  induction u with
  | nil =>
    intro u' v v' _ hu' h
    cases u' with
    | nil => rfl
    | cons b t =>
      simp at h
      exact absurd h.1.symm (hu' b (List.mem_cons_self b t))
  | cons a t ih =>
    intro u' v v' hu hu' h
    cases u' with
    | nil =>
      simp at h
      exact absurd h.1 (hu a (List.mem_cons_self a t))
    | cons b t' =>
      simp at h
      rcases h with ⟨hab, ht⟩
      subst hab
      rw [ih t' v v' (fun x hx => hu x (List.mem_cons_of_mem a hx))
        (fun x hx => hu' x (List.mem_cons_of_mem a hx)) ht]

/-- The `http` crate's `StatusCode::canonical_reason`: the registered
reason phrase of a status code, when there is one. -/
def canonical_reason (c : StatusCode) : Option String :=
  match c with
  | 100 => some "Continue"
  | 101 => some "Switching Protocols"
  | 102 => some "Processing"
  | 200 => some "OK"
  | 201 => some "Created"
  | 202 => some "Accepted"
  | 203 => some "Non Authoritative Information"
  | 204 => some "No Content"
  | 205 => some "Reset Content"
  | 206 => some "Partial Content"
  | 207 => some "Multi-Status"
  | 208 => some "Already Reported"
  | 226 => some "IM Used"
  | 300 => some "Multiple Choices"
  | 301 => some "Moved Permanently"
  | 302 => some "Found"
  | 303 => some "See Other"
  | 304 => some "Not Modified"
  | 305 => some "Use Proxy"
  | 307 => some "Temporary Redirect"
  | 308 => some "Permanent Redirect"
  | 400 => some "Bad Request"
  | 401 => some "Unauthorized"
  | 402 => some "Payment Required"
  | 403 => some "Forbidden"
  | 404 => some "Not Found"
  | 405 => some "Method Not Allowed"
  | 406 => some "Not Acceptable"
  | 407 => some "Proxy Authentication Required"
  | 408 => some "Request Timeout"
  | 409 => some "Conflict"
  | 410 => some "Gone"
  | 411 => some "Length Required"
  | 412 => some "Precondition Failed"
  | 413 => some "Payload Too Large"
  | 414 => some "URI Too Long"
  | 415 => some "Unsupported Media Type"
  | 416 => some "Range Not Satisfiable"
  | 417 => some "Expectation Failed"
  | 418 => some "I\x27m a teapot"
  | 421 => some "Misdirected Request"
  | 422 => some "Unprocessable Entity"
  | 423 => some "Locked"
  | 424 => some "Failed Dependency"
  | 426 => some "Upgrade Required"
  | 428 => some "Precondition Required"
  | 429 => some "Too Many Requests"
  | 431 => some "Request Header Fields Too Large"
  | 451 => some "Unavailable For Legal Reasons"
  | 500 => some "Internal Server Error"
  | 501 => some "Not Implemented"
  | 502 => some "Bad Gateway"
  | 503 => some "Service Unavailable"
  | 504 => some "Gateway Timeout"
  | 505 => some "HTTP Version Not Supported"
  | 506 => some "Variant Also Negotiates"
  | 507 => some "Insufficient Storage"
  | 508 => some "Loop Detected"
  | 510 => some "Not Extended"
  | 511 => some "Network Authentication Required"
  | _ => none

/-- The `http` crate's `Display for StatusCode`: the decimal code, a
space, and the canonical reason (or a fixed fallback). This is what
`format!("({})", code)` interpolates in `src/types.rs`. -/
def code_display (c : StatusCode) : String :=
  nat_decimal c ++ " " ++ (canonical_reason c).getD "<unknown status code>"

/-- Embedding of `impl Display for Status` from `src/types.rs` (lines 123-141); the
`Serialize` impl (lines 143-150) emits exactly this string
(`serializer.collect_str(self)`). -/
def Status.display : Status → String
  | Status.Ok c => "OK (" ++ code_display c ++ ")"
  | Status.Redirected c => "Redirect (" ++ code_display c ++ ")"
  | Status.Excluded => "Excluded"
  | Status.Error err (some code) => "Failed: " ++ err ++ " (" ++ code_display code ++ ")"
  | Status.Error err none => "Failed: " ++ err
  | Status.Timeout (some c) => "Timeout (" ++ code_display c ++ ")"
  | Status.Timeout none => "Timeout"

/-- Embedding of `Response` from `src/types.rs` (lines 66-75): `uri` (modelled by its
canonical string form), `status`, and the `#[serde(skip)]` fields
`source` and `recursion_level`. -/
structure Response where
  uri : String
  status : Status
  source : String
  recursion_level : Nat
deriving DecidableEq, Repr

/-- The serde output of a `Response` as a key/value list. `status` is the
`collect_str` string of the `Status`; `source` and `recursion_level` are
`#[serde(skip)]`ped. Modelled from the spec for the flattened `Uri`
part: "`uri` serializes as its canonical string form". -/
def Response.serialize_fields (r : Response) : List (String × String) :=
  [("uri", r.uri), ("status", r.status.display)]

theorem str_data_append (s t : String) : (s ++ t).data = s.data ++ t.data := rfl

theorem code_display_inj (c1 c2 : StatusCode) (h : code_display c1 = code_display c2) :
    c1 = c2 := by
  have hd := congrArg String.data h
  rw [code_display, code_display, str_data_append, str_data_append,
    str_data_append, str_data_append] at hd
  simp only [List.append_assoc] at hd
  have hns1 : ∀ a ∈ (nat_decimal c1).data, a ≠ ' ' :=
    fun a ha => nat_digits_aux_no_space (c1 + 1) c1 a ha
  have hns2 : ∀ a ∈ (nat_decimal c2).data, a ≠ ' ' :=
    fun a ha => nat_digits_aux_no_space (c2 + 1) c2 a ha
  have heq : (nat_decimal c1).data = (nat_decimal c2).data := by
    refine no_space_append_cancel (nat_decimal c1).data (nat_decimal c2).data
      ((canonical_reason c1).getD "<unknown status code>").data
      ((canonical_reason c2).getD "<unknown status code>").data hns1 hns2 ?_
    simpa using hd
  exact nat_decimal_inj c1 c2 (String.ext heq)

theorem display_wrap_inj (p x y : String) (h : p ++ x ++ ")" = p ++ y ++ ")") :
    x = y := by
  have hd := congrArg String.data h
  rw [str_data_append, str_data_append, str_data_append, str_data_append] at hd
  simp only [List.append_assoc] at hd
  have h1 := List.append_cancel_left hd
  have h2 := List.append_cancel_right h1
  exact String.ext h2

/-- Counterexample for C9: the code inside the status string is rendered
by the `http` crate's `Display for StatusCode`, which appends the
canonical reason phrase, so `Ok(200)` serializes as `"OK (200 OK)"`, not
`"OK (200)"`; and the `Error` mapping is not injective: a reason ending
in a parenthesized code collides with the same code carried in the code
field. -/
theorem C9_counterexample :
    Status.display (Status.Ok 200) = "OK (200 OK)"
    ∧ Status.display (Status.Ok 200) ≠ "OK (200)"
    ∧ Status.display (Status.Error "a (404 Not Found)" none)
        = Status.display (Status.Error "a" (some 404))
    ∧ (Status.Error "a (404 Not Found)" none : Status) ≠ Status.Error "a" (some 404) :=
  ⟨rfl, by decide, rfl, by decide⟩

/-- Claim C9 (amended): `Status` serializes as the total string mapping
`Ok(c) ↦ "OK (<c>)"`, `Redirected(c) ↦ "Redirect (<c>)"`,
`Timeout(None) ↦ "Timeout"`, `Timeout(Some c) ↦ "Timeout (<c>)"`,
`Excluded ↦ "Excluded"`, `Error(r, None) ↦ "Failed: r"`,
`Error(r, Some c) ↦ "Failed: r (<c>)"`, where `<c>` is the code rendered
together with its canonical reason phrase (e.g. `200 OK`); the mapping
is injective per variant for `Ok`, `Redirected` and `Timeout` (though
not for `Error`); and a serialized `Response` carries only the `uri` and
`status` fields, with `source` and `recursion_level` elided. -/
theorem C9_status_serialization (c c1 c2 : StatusCode) (o1 o2 : Option StatusCode)
    (reason : String) (r : Response) :
    Status.display (Status.Ok c) = "OK (" ++ code_display c ++ ")"
    ∧ Status.display (Status.Redirected c) = "Redirect (" ++ code_display c ++ ")"
    ∧ Status.display (Status.Timeout none) = "Timeout"
    ∧ Status.display (Status.Timeout (some c)) = "Timeout (" ++ code_display c ++ ")"
    ∧ Status.display Status.Excluded = "Excluded"
    ∧ Status.display (Status.Error reason none) = "Failed: " ++ reason
    ∧ Status.display (Status.Error reason (some c))
        = "Failed: " ++ reason ++ " (" ++ code_display c ++ ")"
    ∧ (Status.display (Status.Ok c1) = Status.display (Status.Ok c2) → c1 = c2)
    ∧ (Status.display (Status.Redirected c1) = Status.display (Status.Redirected c2) →
        c1 = c2)
    ∧ (Status.display (Status.Timeout o1) = Status.display (Status.Timeout o2) → o1 = o2)
    ∧ r.serialize_fields = [("uri", r.uri), ("status", r.status.display)]
    ∧ r.serialize_fields.map Prod.fst = ["uri", "status"] := by
  refine ⟨rfl, rfl, rfl, rfl, rfl, rfl, ?_, ?_, ?_, ?_, rfl, rfl⟩
  · show "Failed: " ++ reason ++ " (" ++ code_display c ++ ")"
      = "Failed: " ++ reason ++ " (" ++ code_display c ++ ")"
    rfl
  · intro h
    exact code_display_inj c1 c2 (display_wrap_inj "OK (" _ _ h)
  · intro h
    exact code_display_inj c1 c2 (display_wrap_inj "Redirect (" _ _ h)
  · rcases o1 with _ | a <;> rcases o2 with _ | b
    · intro _; rfl
    · intro h
      exfalso
      have hl := congrArg String.length h
      rw [Status.display, Status.display, String.length_append,
        String.length_append] at hl
      have h7 : ("Timeout" : String).length = 7 := rfl
      have h9 : ("Timeout (" : String).length = 9 := rfl
      have hp : (")" : String).length = 1 := rfl
      rw [h7, h9, hp] at hl
      omega
    · intro h
      exfalso
      have hl := congrArg String.length h
      rw [Status.display, Status.display, String.length_append,
        String.length_append] at hl
      have h7 : ("Timeout" : String).length = 7 := rfl
      have h9 : ("Timeout (" : String).length = 9 := rfl
      have hp : (")" : String).length = 1 := rfl
      rw [h7, h9, hp] at hl
      omega
    · intro h
      rw [code_display_inj a b (display_wrap_inj "Timeout (" _ _ h)]

/-- Witness for C9 at concrete inputs: the redirect display equation at
301, and the `Ok` injectivity applied at 200. -/
theorem C9_status_serialization_witness :
    Status.display (Status.Redirected 301) = "Redirect (" ++ code_display 301 ++ ")"
    ∧ (200 : StatusCode) = 200 :=
  ⟨(C9_status_serialization 301 200 200 none none ""
      ⟨"https://example.com", Status.Ok 200, "stdin", 0⟩).2.1,
   (C9_status_serialization 301 200 200 none none ""
      ⟨"https://example.com", Status.Ok 200, "stdin", 0⟩).2.2.2.2.2.2.2.1 rfl⟩
